import Mathlib

/-!
Verification of the deterministic pricing logic of the price-compare
repository: the price parser `parse_price` (be/utils.py) and the fallback
discount / ranking engine `calculate_discount_fallback` (be/analysis.py).

Python strings are modelled as `List Char`; Python floats arising from
prices and discounts are modelled as rationals `ℚ` (all arithmetic the
claims exercise is exact decimal arithmetic). The two regular expressions
used by the fallback engine, `(\d{1,2}(?:\.\d{1,2})?)%` and
`[₹Rs\.]\s*([\d,]+)`, are embedded as explicit leftmost-match scanning
functions with the same greedy/backtracking behaviour on the pattern
shapes they contain.
-/

set_option maxRecDepth 4000

namespace PriceCompare

/-- A Python string, as its list of characters. -/
abbrev Str := List Char

/-- Shorthand to build a `Str` from a Lean string literal. -/
def toL (s : String) : Str := s.toList

/-- Python `str.lower()` (character-wise; all data here is ASCII plus `₹`,
which `lower` leaves unchanged). -/
def lowerStr (s : Str) : Str := s.map Char.toLower

/-- Value of a run of decimal digit characters, as `float` of the digit
string would produce for an integer run. -/
def digitsToNat (ds : Str) : Nat := ds.foldl (fun a c => 10 * a + (c.toNat - 48)) 0

/-- Value of the decimal literal `<ip>.<fr>` (integer part digits `ip`,
fractional digits `fr`), as Python `float` of that text. -/
def decimalVal (ip fr : Str) : ℚ :=
  (digitsToNat ip : ℚ) + (digitsToNat fr : ℚ) / (10 : ℚ) ^ fr.length

/-- First maximal digit run of a character list together with the remainder
after it: the match of `re.search(r'(\d+\.?\d*)', s)` starts at the first
digit and `\d+` greedily takes the whole run. Returns `none` when the list
has no digit. -/
def findFirstRun : Str → Option (Str × Str)
  | [] => none
  | c :: cs =>
    if c.isDigit then
      some ((c :: cs).takeWhile Char.isDigit, (c :: cs).dropWhile Char.isDigit)
    else findFirstRun cs

/-- `parse_price` from be/utils.py (identical copy in be/test.py): on a
falsy (empty) string return `None`; otherwise delete every `₹` and `,`
(`re.sub(r'[₹,]', '', ...)`), then return the first match of
`(\d+\.?\d*)` as a float, or `None` when no digit occurs.

Note that deleting `₹` happens before digit extraction, so two prices
concatenated with `₹` as the only separator merge into one digit run. -/
def parse_price (s : Str) : Option ℚ :=
  if s = [] then none
  else
    match findFirstRun (s.filter fun c => !(c = '₹' || c = ',')) with
    | none => none
    | some (run, rest) =>
      match rest with
      | '.' :: rest2 => some (decimalVal run (rest2.takeWhile Char.isDigit))
      | _ => some (digitsToNat run)

/-- One attempt of the tail of `(\d{1,2}(?:\.\d{1,2})?)%` after the integer
part `ip` has been fixed: greedily try a two-digit fraction, then a
one-digit fraction, then no fraction, each followed by the literal `%`.
Returns the text of the captured group, as `percent_match.group(1)` does. -/
def tryTail (ip : Str) (tail : Str) : Option Str :=
  (match tail with
   | '.' :: f1 :: f2 :: '%' :: _ =>
     if f1.isDigit && f2.isDigit then some (ip ++ ['.', f1, f2]) else none
   | _ => none) <|>
  (match tail with
   | '.' :: f1 :: '%' :: _ => if f1.isDigit then some (ip ++ ['.', f1]) else none
   | _ => none) <|>
  (match tail with
   | '%' :: _ => some ip
   | _ => none)

/-- `re.search(r'(\d{1,2}(?:\.\d{1,2})?)%', s)`: scan left to right; at a
digit, `\d{1,2}` greedily tries two digits then backtracks to one; the
fraction and the closing `%` are tried by `tryTail`. Returns the text of
the captured group of the leftmost match. -/
def percentSearch : Str → Option Str
  | [] => none
  | c :: cs =>
    (if c.isDigit then
      (match cs with
       | d :: rest => if d.isDigit then tryTail [c, d] rest else none
       | [] => none) <|>
      tryTail [c] cs
     else none) <|>
    percentSearch cs

/-- Python `float` on a matched numeric text of the shape
`digits` or `digits.digits` (the only shapes the groups here can take). -/
def floatVal (s : Str) : ℚ :=
  match s.dropWhile Char.isDigit with
  | '.' :: fr => decimalVal (s.takeWhile Char.isDigit) (fr.takeWhile Char.isDigit)
  | _ => (digitsToNat (s.takeWhile Char.isDigit) : ℚ)

/-- The single-character class `[₹Rs\.]` of the amount regex (note it
matches the bare characters `R`, `s` and `.`, not the token `Rs.`). -/
def isAmtStart (c : Char) : Bool := c = '₹' || c = 'R' || c = 's' || c = '.'

/-- Tail of `[₹Rs\.]\s*([\d,]+)` after the class character: skip
whitespace, then capture a maximal nonempty run of digits and commas,
returned as the group text `amount_match.group(1)`. -/
def amountAt (l : Str) : Option Str :=
  let rest := l.dropWhile fun c => c.isWhitespace
  let run := rest.takeWhile fun c => c.isDigit || c = ','
  if run = [] then none else some run

/-- `re.search(r'[₹Rs\.]\s*([\d,]+)', s)`: leftmost class character whose
tail completes the pattern; returns the text of the captured group. -/
def amountSearch : Str → Option Str
  | [] => none
  | c :: cs => (if isAmtStart c then amountAt cs else none) <|> amountSearch cs

/-- `float(amount_match.group(1).replace(',', ''))`: drop the commas of
the captured group and read the remaining digits (a group consisting
solely of commas would raise an uncaught `ValueError` in the source and
does not occur in this development). -/
def amountVal (g : Str) : ℚ := (digitsToNat (g.filter fun c => !(c = ',')) : ℚ)

/-- Python substring containment `needle in hay` on lists of characters. -/
def strContains : Str → Str → Bool
  | [], needle => needle.isEmpty
  | c :: t, needle => needle.isPrefixOf (c :: t) || strContains t needle

/-- The card check of the fallback engine:
`any(card.lower() in offer.lower() for card in user_credit_cards)`. -/
def cardMatches (cards : List Str) (offer : Str) : Bool :=
  cards.any fun card => strContains (lowerStr offer) (lowerStr card)

/-- Discount of one matched offer line (be/analysis.py lines 90-98):
`current_discount` is `original_price * percent/100` when the percent
regex matches, else the fixed amount when the amount regex matches, else
0. Caps appearing in the text are never applied. -/
def offerDiscount (p : ℚ) (offer : Str) : ℚ :=
  match percentSearch offer with
  | some g => p * (floatVal g / 100)
  | none =>
    match amountSearch offer with
    | some g => amountVal g
    | none => 0

/-- The text Python renders for `best_offer_text = "None"`. -/
def noneText : Str := toL "None"

/-- One iteration of the offer loop: keep the strictly larger discount
(`if current_discount > best_discount`), skipping offers no user card
matches. -/
def offerStep (p : ℚ) (cards : List Str) (acc : ℚ × Str) (offer : Str) : ℚ × Str :=
  if cardMatches cards offer then
    if acc.1 < offerDiscount p offer then (offerDiscount p offer, offer) else acc
  else acc

/-- The offer loop of be/analysis.py lines 86-101: best discount and the
offer text achieving it, starting from `(0.0, "None")`. -/
def bestOffer (p : ℚ) (cards : List Str) (offers : List Str) : ℚ × Str :=
  offers.foldl (offerStep p cards) (0, noneText)

/-- The `Product` model of be/models.py, restricted to the fields the
fallback engine reads. `basic_details` is a JSON string in the source;
here it is modelled as the list `credit_card_offers` that
`json.loads(...).get('credit_card_offers', [])` yields, with `none` for a
missing field (a JSON parse failure is caught by the source and behaves
exactly like an empty offer list, so it needs no separate representation). -/
structure Product where
  title : Str
  price : Str
  url : Str
  platform : Str
  rating : Option Str := none
  seller : Option Str := none
  basic_details : Option (List Str) := none
  original_price : Option ℚ := none
deriving DecidableEq

/-- The `ProductOutput` model of be/models.py. -/
structure ProductOutput where
  title : Str
  platform : Str
  price : Str
  original_price : ℚ
  effective_price : ℚ
  discount_applied : Str
  url : Str
  rating : Option Str := none
  seller : Option Str := none
deriving DecidableEq

/-- Lines 74-76 of be/analysis.py:
`original_price = product.original_price or parse_price(product.price)`
followed by `if not original_price: continue`. Python `or` falls through
on falsy values (`None` and `0.0`), and the guard also skips `0.0`. -/
def resolvePrice (p : Product) : Option ℚ :=
  let r :=
    match p.original_price with
    | some x => if x = 0 then parse_price p.price else some x
    | none => parse_price p.price
  match r with
  | some x => if x = 0 then none else some x
  | none => none

/-- The offer list the engine iterates over for a product. -/
def offersOf (p : Product) : List Str := p.basic_details.getD []

/-- The body of the product loop of `calculate_discount_fallback`:
`none` when the price guard skips the product, otherwise the
`ProductOutput` record appended to `results`. -/
def processProduct (cards : List Str) (p : Product) : Option ProductOutput :=
  match resolvePrice p with
  | none => none
  | some op =>
    let best := bestOffer op cards (offersOf p)
    some
      { title := p.title
        platform := p.platform
        price := p.price
        original_price := op
        effective_price := op - best.1
        discount_applied := best.2
        url := p.url
        rating := p.rating
        seller := p.seller }

/-- The sort relation of `results.sort(key=lambda x: x['effective_price'])`. -/
def effLE (a b : ProductOutput) : Prop := a.effective_price ≤ b.effective_price

instance : DecidableRel effLE :=
  fun a b => inferInstanceAs (Decidable (a.effective_price ≤ b.effective_price))

instance : IsTotal ProductOutput effLE :=
  ⟨fun a b => le_total a.effective_price b.effective_price⟩

instance : IsTrans ProductOutput effLE :=
  ⟨fun _ _ _ h1 h2 => le_trans h1 h2⟩

/-- `calculate_discount_fallback` of be/analysis.py lines 68-119: process
each product in scrape order, skipping products without a usable price,
then stably sort the results ascending by `effective_price` (Python
`list.sort` is stable; `List.insertionSort` with a total preorder is the
same stable sort). -/
def calculate_discount_fallback (products : List Product) (cards : List Str) :
    List ProductOutput :=
  List.insertionSort effLE (products.filterMap (processProduct cards))

/-- Boolean key-equality predicate used to state stability of the sort. -/
def effKey (k : ℚ) (o : ProductOutput) : Bool := decide (o.effective_price = k)

/-- Retitling a product, leaving every other field unchanged. -/
def retitleP (f : Str → Str) (p : Product) : Product := { p with title := f p.title }

/-- Retitling an output record, leaving every other field unchanged. -/
def retitleO (f : Str → Str) (o : ProductOutput) : ProductOutput := { o with title := f o.title }

/-! ### Concrete data used by counterexamples and witnesses -/

/-- A ₹100 listing carrying a matched fixed-amount offer of ₹500. -/
def cexProduct1 : Product :=
  { title := toL "Cheap Cable", price := toL "₹100", url := toL "u1", platform := toL "Amazon",
    basic_details := some [toL "HDFC Bank offer: ₹ 500 off on orders"] }

/-- A plain listing with no offers. -/
def witProduct1 : Product :=
  { title := toL "Pen", price := toL "₹10", url := toL "u", platform := toL "Amazon" }

/-- The output the engine produces for `witProduct1` with no cards. -/
def witOutput1 : ProductOutput :=
  { title := toL "Pen", platform := toL "Amazon", price := toL "₹10",
    original_price := 10, effective_price := 10, discount_applied := noneText, url := toL "u" }

/-- The capped-cashback offer text of the spec's worked example. -/
def offerICICI : Str := toL "Amazon Pay ICICI 5% cashback capped at ₹1,800"

/-- The ₹60,000 listing of the spec's worked example. -/
def cexProduct2 : Product :=
  { title := toL "Phone X", price := toL "₹60,000", url := toL "u2", platform := toL "Amazon",
    basic_details := some [offerICICI] }

/-- The search query of the ranking example. -/
def queryC3 : Str := toL "iphone 16"

/-- A listing whose title is exactly the query, priced ₹59,400. -/
def cexProductMatch : Product :=
  { title := toL "iphone 16", price := toL "₹59,400", url := toL "um", platform := toL "Amazon" }

/-- A listing whose title shares nothing with the query, priced ₹58,200. -/
def cexProductOther : Product :=
  { title := toL "usb charger cable", price := toL "₹58,200", url := toL "uo",
    platform := toL "Flipkart" }

/-- A listing whose price text contains no digits. -/
def badProduct : Product :=
  { title := toL "Ghost Item", price := toL "N/A", url := toL "ub", platform := toL "Amazon" }

/-- A second digit-free-price listing, used by the C8 witness. -/
def badProduct2 : Product :=
  { title := toL "Ghost Item 2", price := toL "Out of stock", url := toL "ub2",
    platform := toL "Flipkart" }

/-- An ordinary parseable listing. -/
def goodProduct : Product :=
  { title := toL "Mouse", price := toL "₹799", url := toL "ug", platform := toL "Amazon" }

/-- A listing whose only offer names a bank the user does not hold. -/
def witProduct7 : Product :=
  { title := toL "Tablet", price := toL "₹20,000", url := toL "u7", platform := toL "Flipkart",
    basic_details := some [toL "10% off with ICICI Bank Cards"] }

/-- A listing used by the determinism witness. -/
def witProduct9 : Product :=
  { title := toL "Lamp", price := toL "₹1,499", url := toL "u9", platform := toL "Amazon" }

/-! ### Helper lemmas -/

theorem foldl_offerStep_le (p : ℚ) (cards : List Str) :
    ∀ (offers : List Str) (init : ℚ × Str),
      init.1 ≤ (offers.foldl (offerStep p cards) init).1
  | [], _ => le_refl _
  | o :: os, init => by
    have h1 : init.1 ≤ (offerStep p cards init o).1 := by
      unfold offerStep
      split
      · split
        · exact le_of_lt (by assumption)
        · exact le_refl _
      · exact le_refl _
    exact le_trans h1 (foldl_offerStep_le p cards os _)

theorem bestOffer_fst_nonneg (p : ℚ) (cards : List Str) (offers : List Str) :
    0 ≤ (bestOffer p cards offers).1 :=
  foldl_offerStep_le p cards offers (0, noneText)

theorem foldl_offerStep_no_match (p : ℚ) (cards : List Str) :
    ∀ (offers : List Str) (init : ℚ × Str),
      (∀ off ∈ offers, cardMatches cards off = false) →
      offers.foldl (offerStep p cards) init = init
  | [], _, _ => rfl
  | o :: os, init, h => by
    have hstep : offerStep p cards init o = init := by
      simp [offerStep, h o (List.mem_cons_self o os)]
    calc (o :: os).foldl (offerStep p cards) init
        = os.foldl (offerStep p cards) (offerStep p cards init o) := rfl
      _ = os.foldl (offerStep p cards) init := by rw [hstep]
      _ = init := foldl_offerStep_no_match p cards os init
            (fun x hx => h x (List.mem_cons_of_mem o hx))

/-! ### Evaluation helpers for concrete runs -/

theorem bestOffer_nil (p : ℚ) (cards : List Str) : bestOffer p cards [] = (0, noneText) := rfl

theorem bestOffer_single (p : ℚ) (cards : List Str) (off : Str)
    (hm : cardMatches cards off = true) (hpos : 0 < offerDiscount p off) :
    bestOffer p cards [off] = (offerDiscount p off, off) := by
  unfold bestOffer offerStep
  simp [hm, hpos]

theorem offerDiscount_percent (p : ℚ) (off g : Str) (h : percentSearch off = some g) :
    offerDiscount p off = p * (floatVal g / 100) := by
  unfold offerDiscount
  rw [h]

theorem offerDiscount_amount (p : ℚ) (off g : Str)
    (hp : percentSearch off = none) (ha : amountSearch off = some g) :
    offerDiscount p off = amountVal g := by
  unfold offerDiscount
  rw [hp, ha]

theorem processProduct_some (cards : List Str) (p : Product) (op : ℚ)
    (h : resolvePrice p = some op) :
    processProduct cards p = some
      { title := p.title, platform := p.platform, price := p.price,
        original_price := op,
        effective_price := op - (bestOffer op cards (offersOf p)).1,
        discount_applied := (bestOffer op cards (offersOf p)).2,
        url := p.url, rating := p.rating, seller := p.seller } := by
  unfold processProduct
  rw [h]

theorem calc_singleton (cards : List Str) (p : Product) :
    calculate_discount_fallback [p] cards = (processProduct cards p).toList := by
  unfold calculate_discount_fallback
  cases h : processProduct cards p with
  | none => simp [List.filterMap_cons, h]
  | some o => simp [List.filterMap_cons, h, List.insertionSort, List.orderedInsert]

theorem calc_pair_swap (cards : List Str) (p q : Product) (po qo : ProductOutput)
    (hp : processProduct cards p = some po) (hq : processProduct cards q = some qo)
    (h : ¬ effLE po qo) :
    calculate_discount_fallback [p, q] cards = [qo, po] := by
  unfold calculate_discount_fallback
  simp [List.filterMap_cons, hp, hq, List.insertionSort, List.orderedInsert, h]

/-! ### Claim theorems -/

/-- C1, counterexample: on a ₹100 listing with a matched "₹ 500 off"
offer the engine outputs `effective_price = -400 < 0`; the total discount
is not clipped to `original_price`. -/
theorem C1_counterexample :
    (calculate_discount_fallback [cexProduct1] [toL "HDFC Bank"]).map
        ProductOutput.effective_price = [(-400 : ℚ)] ∧
      ¬ (0 : ℚ) ≤ (-400 : ℚ) := by
  have hd : offerDiscount 100 (toL "HDFC Bank offer: ₹ 500 off on orders") = 500 := by
    rw [offerDiscount_amount 100 _ (toL "500") (by decide) (by decide)]
    rfl
  have hb : bestOffer 100 [toL "HDFC Bank"] (offersOf cexProduct1)
      = (offerDiscount 100 (toL "HDFC Bank offer: ₹ 500 off on orders"),
          toL "HDFC Bank offer: ₹ 500 off on orders") :=
    bestOffer_single 100 _ _ (by decide) (by rw [hd]; norm_num)
  rw [calc_singleton, processProduct_some [toL "HDFC Bank"] cexProduct1 100 rfl]
  rw [hb, hd]
  refine ⟨by simp; norm_num, by norm_num⟩

/-- C1 (amended): every output of the fallback engine satisfies
`effective_price ≤ original_price`, because the selected discount is
nonnegative and is subtracted from the original price; but the engine
performs no upper clipping of the discount, so `effective_price ≥ 0`
fails in general on a matched fixed-amount offer exceeding the price. -/
theorem C1_effective_le_original (ps : List Product) (cards : List Str)
    (o : ProductOutput) (ho : o ∈ calculate_discount_fallback ps cards) :
    o.effective_price ≤ o.original_price := by
  rw [calculate_discount_fallback, List.mem_insertionSort] at ho
  obtain ⟨p, _, hproc⟩ := List.mem_filterMap.1 ho
  unfold processProduct at hproc
  rcases hres : resolvePrice p with _ | op
  · rw [hres] at hproc; simp at hproc
  · rw [hres] at hproc
    simp only [Option.some.injEq] at hproc
    subst hproc
    have h0 : 0 ≤ (bestOffer op cards (offersOf p)).1 :=
      bestOffer_fst_nonneg op cards (offersOf p)
    show op - (bestOffer op cards (offersOf p)).1 ≤ op
    linarith

theorem calcWit1 : calculate_discount_fallback [witProduct1] [] = [witOutput1] := by
  rw [calc_singleton, processProduct_some [] witProduct1 10 rfl]
  simp only [Option.toList_some, List.cons.injEq, and_true]
  rw [show bestOffer 10 [] (offersOf witProduct1) = (0, noneText) from rfl]
  simp [witOutput1, witProduct1, ProductOutput.mk.injEq]

/-- C1, witness: a concrete output record of the engine, with the bound
`effective_price ≤ original_price` obtained from `C1_effective_le_original`. -/
theorem C1_witness :
    witOutput1 ∈ calculate_discount_fallback [witProduct1] [] ∧
      witOutput1.effective_price ≤ witOutput1.original_price :=
  ⟨by rw [calcWit1]; exact List.mem_singleton.2 rfl,
    C1_effective_le_original [witProduct1] [] witOutput1
      (by rw [calcWit1]; exact List.mem_singleton.2 rfl)⟩

theorem calcCex2 :
    calculate_discount_fallback [cexProduct2] [toL "Amazon Pay ICICI"]
      = [{ title := cexProduct2.title, platform := cexProduct2.platform,
           price := cexProduct2.price, original_price := 60000,
           effective_price := 57000, discount_applied := offerICICI,
           url := cexProduct2.url, rating := none, seller := none }] := by
  have hd : offerDiscount 60000 offerICICI = 3000 := by
    rw [offerDiscount_percent 60000 offerICICI ['5'] (by decide),
      show floatVal ['5'] = (5 : ℚ) from rfl]
    norm_num
  have hb : bestOffer 60000 [toL "Amazon Pay ICICI"] (offersOf cexProduct2)
      = (offerDiscount 60000 offerICICI, offerICICI) :=
    bestOffer_single 60000 _ _ (by decide) (by rw [hd]; norm_num)
  rw [calc_singleton, processProduct_some [toL "Amazon Pay ICICI"] cexProduct2 60000 rfl]
  rw [hb, hd]
  simp only [Option.toList_some, List.cons.injEq, and_true, ProductOutput.mk.injEq]
  norm_num
  exact ⟨rfl, rfl⟩

/-- C2, counterexample: on the spec's worked example (₹60,000 listing,
matched "Amazon Pay ICICI 5% cashback capped at ₹1,800" offer) the engine
does not return `effective_price = 58200`: the ₹1,800 cap is never
applied. -/
theorem C2_counterexample :
    (calculate_discount_fallback [cexProduct2] [toL "Amazon Pay ICICI"]).map
        ProductOutput.effective_price ≠ [(58200 : ℚ)] := by
  rw [calcCex2]
  simp only [List.map_cons, List.map_nil, ne_eq, List.cons.injEq, and_true]
  norm_num

/-- C2 (amended): a percent discount is computed as
`value/100 * original_price` with any cap in the offer text ignored, so
the worked example yields `total_discount = 3000` and
`effective_price = 57000`. -/
theorem C2_amended_eval :
    (calculate_discount_fallback [cexProduct2] [toL "Amazon Pay ICICI"]).map
        (fun o => (o.original_price, o.effective_price, o.discount_applied))
      = [((60000 : ℚ), (57000 : ℚ), offerICICI)] := by
  rw [calcCex2]
  rfl

/-- C5: evaluation of `parse_price` at the failing input. Because the
source deletes every `₹` before extracting digits, the two concatenated
prices of "₹61490₹69900" merge into the single run 6149069900 instead of
yielding the first price 61490; the round-trip "₹1,35,900.00" → 135900
does hold. -/
theorem C5_parse_price_eval :
    parse_price (toL "₹61490₹69900") = some ((6149069900 : ℚ)) ∧
      parse_price (toL "₹1,35,900.00") = some ((135900 : ℚ)) := by
  constructor
  · rfl
  · rw [show parse_price (toL "₹1,35,900.00")
        = some (decimalVal ['1', '3', '5', '9', '0', '0'] ['0', '0']) from rfl]
    unfold decimalVal
    rw [show digitsToNat ['1', '3', '5', '9', '0', '0'] = 135900 from rfl,
      show digitsToNat ['0', '0'] = 0 from rfl]
    norm_num

/-- The processing step ignores titles entirely: retitling products
retitles the outputs and changes nothing else. -/
theorem processProduct_retitle (f : Str → Str) (cards : List Str) (p : Product) :
    processProduct cards (retitleP f p) = (processProduct cards p).map (retitleO f) := by
  have hres : resolvePrice (retitleP f p) = resolvePrice p := rfl
  unfold processProduct
  rw [hres]
  cases resolvePrice p with
  | none => rfl
  | some op => rfl

/-- C3, counterexample: with query "iphone 16", the listing titled
exactly "iphone 16" (effective price 59400) is ranked second, after the
unrelated listing "usb charger cable" (effective price 58200): title
matching plays no role in the sort. -/
theorem C3_counterexample :
    (calculate_discount_fallback [cexProductMatch, cexProductOther] []).map
        ProductOutput.title = [toL "usb charger cable", toL "iphone 16"] ∧
      cexProductMatch.title = queryC3 ∧ cexProductOther.title ≠ queryC3 := by
  have hne : ¬ ((59400 : ℚ) - (bestOffer 59400 [] (offersOf cexProductMatch)).1
      ≤ 58200 - (bestOffer 58200 [] (offersOf cexProductOther)).1) := by
    rw [show bestOffer 59400 [] (offersOf cexProductMatch) = (0, noneText) from rfl,
      show bestOffer 58200 [] (offersOf cexProductOther) = (0, noneText) from rfl]
    norm_num
  rw [calc_pair_swap [] cexProductMatch cexProductOther _ _
    (processProduct_some [] cexProductMatch 59400 rfl)
    (processProduct_some [] cexProductOther 58200 rfl) hne]
  exact ⟨rfl, rfl, by decide⟩

/-- C3 (amended): the sort key is `effective_price` alone; the product
titles are carried through unchanged and never influence membership,
prices or order of the output, as retitling every product only retitles
the corresponding outputs. -/
theorem C3_title_irrelevant (f : Str → Str) (ps : List Product) (cards : List Str) :
    calculate_discount_fallback (ps.map (retitleP f)) cards
      = (calculate_discount_fallback ps cards).map (retitleO f) := by
  unfold calculate_discount_fallback
  rw [List.filterMap_map]
  have hcomp : (processProduct cards ∘ retitleP f)
      = fun p => (processProduct cards p).map (retitleO f) :=
    funext fun p => processProduct_retitle f cards p
  rw [hcomp, ← List.map_filterMap]
  exact (List.map_insertionSort effLE effLE (retitleO f) _ (fun a _ b _ => Iff.rfl)).symm

theorem filter_orderedInsert (k : ℚ) (a : ProductOutput) :
    ∀ l : List ProductOutput,
      (List.orderedInsert effLE a l).filter (effKey k)
        = (if effKey k a then [a] else []) ++ l.filter (effKey k)
  | [] => by
    cases h : effKey k a <;> simp [List.orderedInsert, h]
  | b :: t => by
    have ih := filter_orderedInsert k a t
    by_cases hab : effLE a b
    · simp only [List.orderedInsert, if_pos hab, List.filter_cons]
      cases h : effKey k a <;> cases hb : effKey k b <;> simp [h, hb]
    · simp only [List.orderedInsert, if_neg hab, List.filter_cons, ih]
      cases h : effKey k a with
      | false => cases hb : effKey k b <;> simp [h, hb]
      | true =>
        have hbf : effKey k b = false := by
          by_contra hbt
          rw [Bool.not_eq_false] at hbt
          exact hab (le_of_eq ((of_decide_eq_true h).trans (of_decide_eq_true hbt).symm))
        simp [h, hbf]

theorem filter_insertionSort (k : ℚ) :
    ∀ l : List ProductOutput,
      (List.insertionSort effLE l).filter (effKey k) = l.filter (effKey k)
  | [] => rfl
  | a :: t => by
    have ih := filter_insertionSort k t
    simp only [List.insertionSort, filter_orderedInsert, ih, List.filter_cons]
    cases h : effKey k a <;> simp [h]

/-- C4: the output is sorted non-decreasingly by `effective_price` (hence
so is any subsequence of it, in particular the listings whose titles do
not match the query), and the sort is stable: for every key value, the
outputs carrying that `effective_price` appear in exactly the order the
processing loop produced them, which is scrape order. -/
theorem C4_stable_sorted_by_effective_price (ps : List Product) (cards : List Str) :
    (calculate_discount_fallback ps cards).Sorted effLE ∧
      ∀ k : ℚ, (calculate_discount_fallback ps cards).filter (effKey k)
          = (ps.filterMap (processProduct cards)).filter (effKey k) :=
  ⟨List.sorted_insertionSort effLE _, fun k => filter_insertionSort k _⟩

theorem strContains_iff (needle : Str) :
    ∀ hay : Str, strContains hay needle = true ↔ needle <:+: hay
  | [] => by
    simp [strContains, List.isEmpty_iff, List.infix_nil]
  | c :: t => by
    simp only [strContains, Bool.or_eq_true, List.isPrefixOf_iff_prefix,
      strContains_iff needle t, List.infix_cons_iff]

/-- C6 (amended): the card check succeeds iff SOME user card string,
lowercased, occurs verbatim as a contiguous substring of the lowercased
offer text — the containment direction is card-inside-offer, with no
word-boundary handling; a card that merely contains the offer's bank
name (such as "HDFC Bank Millennia" against an offer naming "HDFC Bank")
does not match. -/
theorem C6_match_iff_substring (cards : List Str) (offer : Str) :
    cardMatches cards offer = true ↔
      ∃ card ∈ cards, lowerStr card <:+: lowerStr offer := by
  simp only [cardMatches, List.any_eq_true, strContains_iff]

/-- C6, counterexample: the user card "HDFC Bank Millennia" contains the
bank name "HDFC Bank" appearing in the offer, which the claim says must
match, yet the engine's check fails, because it tests the whole card
string for containment in the offer text, not the reverse. -/
theorem C6_counterexample :
    cardMatches [toL "HDFC Bank Millennia"]
        (toL "10% Instant Discount with HDFC Bank Credit Cards") = false ∧
      strContains (lowerStr (toL "HDFC Bank Millennia")) (lowerStr (toL "HDFC Bank"))
        = true := by
  exact ⟨by decide, by decide⟩

/-- C7: a listing none of whose offers matches any user card is still
priced and returned, with zero discount, the original price as effective
price, and the text "None" as the applied discount; no failure occurs. -/
theorem C7_no_match_zero_discount (ps : List Product) (cards : List Str)
    (p : Product) (op : ℚ) (hp : p ∈ ps) (hres : resolvePrice p = some op)
    (hnm : ∀ off ∈ offersOf p, cardMatches cards off = false) :
    ∃ o ∈ calculate_discount_fallback ps cards,
      o.title = p.title ∧ o.url = p.url ∧ o.original_price = op ∧
        o.effective_price = op ∧ o.discount_applied = noneText := by
  have hbest : bestOffer op cards (offersOf p) = (0, noneText) :=
    foldl_offerStep_no_match op cards (offersOf p) (0, noneText) hnm
  refine ⟨⟨p.title, p.platform, p.price, op, op - 0, noneText, p.url, p.rating, p.seller⟩,
    ?_, rfl, rfl, rfl, by rw [sub_zero], rfl⟩
  rw [calculate_discount_fallback, List.mem_insertionSort]
  refine List.mem_filterMap.2 ⟨p, hp, ?_⟩
  rw [processProduct_some cards p op hres, hbest]

/-- C7, witness: a ₹20,000 listing whose only offer names ICICI Bank,
evaluated for a holder of an HDFC Bank card. -/
theorem C7_witness :
    ∃ o ∈ calculate_discount_fallback [witProduct7] [toL "HDFC Bank"],
      o.title = witProduct7.title ∧ o.url = witProduct7.url ∧
        o.original_price = 20000 ∧ o.effective_price = 20000 ∧
        o.discount_applied = noneText :=
  C7_no_match_zero_discount [witProduct7] [toL "HDFC Bank"] witProduct7 20000
    (List.mem_singleton.2 rfl) rfl (by decide)

/-- C8, counterexample: the batch containing an unpriceable listing and
the batch without it produce identical results, so the returned value
carries no count of skipped listings — no tally is reported anywhere. -/
theorem C8_counterexample :
    calculate_discount_fallback [badProduct, goodProduct] []
      = calculate_discount_fallback [goodProduct] [] := by
  unfold calculate_discount_fallback
  have hb : processProduct [] badProduct = none := rfl
  simp [List.filterMap_cons, hb]

/-- C8 (amended): a listing whose price resolves to nothing is excluded
from the output entirely while the rest of the batch is processed exactly
as if the listing were absent; the function returns only the priced
listings and reports no count of the skipped ones. -/
theorem C8_skipped_excluded (p0 : Product) (ps : List Product) (cards : List Str)
    (h : resolvePrice p0 = none) :
    calculate_discount_fallback (p0 :: ps) cards = calculate_discount_fallback ps cards := by
  unfold calculate_discount_fallback
  have hp0 : processProduct cards p0 = none := by
    unfold processProduct
    rw [h]
  simp [List.filterMap_cons, hp0]

/-- C8, witness: the amended exclusion theorem applied to a concrete
batch led by an out-of-stock listing with no digits in its price text. -/
theorem C8_witness :
    calculate_discount_fallback [badProduct2, goodProduct] []
      = calculate_discount_fallback [goodProduct] [] :=
  C8_skipped_excluded badProduct2 [goodProduct] [] rfl

/-- C9: the engine is a pure function of its inputs — two runs on the
same listings and cards give the same output list. -/
theorem C9_deterministic (ps : List Product) (cards : List Str)
    (r1 r2 : List ProductOutput)
    (h1 : r1 = calculate_discount_fallback ps cards)
    (h2 : r2 = calculate_discount_fallback ps cards) : r1 = r2 :=
  h1.trans h2.symm

/-- C9, witness: two runs on a concrete listing agree. -/
theorem C9_witness :
    calculate_discount_fallback [witProduct9] []
      = calculate_discount_fallback [witProduct9] [] :=
  C9_deterministic [witProduct9] []
    (calculate_discount_fallback [witProduct9] [])
    (calculate_discount_fallback [witProduct9] []) rfl rfl

/-- C10: when an offer line matches the percent pattern, the discount for
that offer is `p * percent/100` regardless of any currency amount also
present in the line (such as a cap written "capped at ₹X" or "up to ₹X"):
the amount branch is only reached when the percent pattern fails. -/
theorem C10_percent_wins_over_amount (offer : Str) (p : ℚ) (g : Str)
    (hpct : percentSearch offer = some g) (hamt : (amountSearch offer).isSome = true) :
    offerDiscount p offer = p * (floatVal g / 100) := by
  have hboth := hamt
  unfold offerDiscount
  rw [hpct]

/-- C10, witness: the "Amazon Pay ICICI 5% cashback capped at ₹1,800"
offer contains both patterns; the discount on ₹60,000 is 5% = ₹3,000,
with the ₹1,800 amount ignored. -/
theorem C10_witness :
    percentSearch offerICICI = some ['5'] ∧ (amountSearch offerICICI).isSome = true ∧
      offerDiscount 60000 offerICICI = 60000 * (floatVal ['5'] / 100) ∧
      60000 * (floatVal ['5'] / 100) = 3000 :=
  ⟨by decide, by decide,
    C10_percent_wins_over_amount offerICICI 60000 ['5'] (by decide) (by decide),
    by rw [show floatVal ['5'] = (5 : ℚ) from rfl]; norm_num⟩

end PriceCompare
